import Mathlib

set_option maxRecDepth 8000

namespace RiotSys

/-- A C preprocessor macro body as it appears in the two headers: either an
object-like macro whose replacement is a token string (possibly empty), or a
function-like macro with a parameter list and a replacement token list. -/
inductive MDef where
  | obj (text : String)
  | fn (params : List String) (body : List String)
  deriving DecidableEq

/-- A preprocessor directive of the kinds occurring in the two headers:
macro definition, macro undefinition, or textual inclusion of another file. -/
inductive Directive where
  | define (name : String) (d : MDef)
  | undefine (name : String)
  | incl (path : String)
  deriving DecidableEq

/-- The macro environment contributed by a header's own directives, most
recent binding first. Included files are external to this repository, so an
inclusion contributes nothing to the environment tracked here: the claims are
about the macros these two headers themselves define and undefine. -/
abbrev Env := List (String × MDef)

/-- Effect of a single directive on the macro environment: a definition
pushes a binding, an undefinition removes every binding of that name, an
inclusion leaves the header's own contribution unchanged. -/
def step (e : Env) : Directive → Env
  | .define n d => (n, d) :: e
  | .undefine n => e.filter (fun p => p.1 != n)
  | .incl _ => e

/-- Process a directive list from a given environment, left to right. -/
def run (e : Env) (ds : List Directive) : Env := ds.foldl step e

/-- Environment after the first k directives of a header, starting from the
empty environment (no macro of interest is defined by the header yet). -/
def envAfter (ds : List Directive) (k : Nat) : Env := run [] (ds.take k)

/-- Whether the macro named n is currently defined. -/
def Env.isDefined (e : Env) (n : String) : Bool := (List.lookup n e).isSome

/-- The current body of the macro named n, if it is defined. -/
def Env.findDef (e : Env) (n : String) : Option MDef := List.lookup n e

/-- Whether a directive is an inclusion. -/
def isIncl : Directive → Bool
  | .incl _ => true
  | _ => false

/-- Whether a directive is a macro definition. -/
def isDefine : Directive → Bool
  | .define _ _ => true
  | _ => false

/-- Whether a directive is a macro undefinition. -/
def isUndefine : Directive → Bool
  | .undefine _ => true
  | _ => false

/-- The name a directive defines, if it is a definition. -/
def definesName : Directive → Option String
  | .define n _ => some n
  | _ => none

/-- Directive sequence of src/riot-bindgen.h: two integer-limit macro
definitions followed by the inclusion of riot-headers.h, and nothing after
the inclusion. -/
def riot_bindgen_h : List Directive :=
  [ .define "UINT16_MAX" (.obj "0xffff")
  , .define "UINT32_MAX" (.obj "0xffffffff")
  , .incl "riot-headers.h" ]

/-- Directive sequence of src/riot-c2rust.h: three atomic-header guard
definitions, the ATOMIC_VAR_INIT identity function-like macro, the
atomic_int_least16_t alias, the inclusion of rmutex.h, five undefinitions
restoring those names, the IS_C2RUST marker definition, and the inclusion of
riot-headers.h. -/
def riot_c2rust_h : List Directive :=
  [ .define "__CLANG_STDATOMIC_H" (.obj "")
  , .define "_STDATOMIC_H" (.obj "")
  , .define "_STDATOMIC_H_" (.obj "")
  , .define "ATOMIC_VAR_INIT" (.fn ["x"] ["x"])
  , .define "atomic_int_least16_t" (.obj "int_least16_t")
  , .incl "rmutex.h"
  , .undefine "__CLANG_STDATOMIC_H"
  , .undefine "_STDATOMIC_H_"
  , .undefine "_STDATOMIC_H"
  , .undefine "ATOMIC_VAR_INIT"
  , .undefine "atomic_int_least16_t"
  , .define "IS_C2RUST" (.obj "")
  , .incl "riot-headers.h" ]

/-- Value of a hexadecimal digit character, if it is one. -/
def hexDigit (c : Char) : Option Nat :=
  let n := c.toNat
  if 48 ≤ n ∧ n ≤ 57 then some (n - 48)
  else if 97 ≤ n ∧ n ≤ 102 then some (n - 87)
  else if 65 ≤ n ∧ n ≤ 70 then some (n - 55)
  else none

/-- Value of a C hexadecimal integer literal of the form 0x... or 0X...,
read digit by digit. -/
def hexLit (s : String) : Option Nat :=
  match s.data with
  | '0' :: x :: rest =>
    if (x = 'x' ∨ x = 'X') ∧ rest ≠ [] then
      rest.foldl
        (fun acc c =>
          match acc, hexDigit c with
          | some a, some d => some (a * 16 + d)
          | _, _ => none)
        (some 0)
    else none
  | _ => none

/-- Substitution semantics of a one-parameter function-like macro: each
replacement token equal to the parameter name is replaced by the argument. -/
def expand1 (p : String) (body : List String) (arg : String) : List String :=
  body.map (fun t => if t = p then arg else t)

end RiotSys

namespace RiotSys

/-- C1 counterexample: the claim fails on the bindgen header. UINT16_MAX is
defined by riot-bindgen.h before its inclusion of riot-headers.h (after
directive 2) and is still defined after the whole header (after directive 3):
the header contains no undefinition, so the preprocessor state is not
restored there. -/
theorem c1_bindgen_leaks :
    ¬ (∀ n : String,
        (envAfter riot_bindgen_h 2).isDefined n = true →
        (envAfter riot_bindgen_h 3).isDefined n = false) :=
  fun h => absurd (h "UINT16_MAX" (by decide)) (by decide)

/-- C1 (amended): only the c2rust header restores the preprocessor state
around its bracketed inclusion: every macro it defines before the rmutex.h
inclusion (the state after directive 5) is no longer defined once the
restoration block has run (after directive 11). The bindgen header, by
contrast, leaves both of its integer-limit macros defined after its
inclusion completes. -/
theorem c1_restore :
    (∀ n : String,
        (envAfter riot_c2rust_h 5).isDefined n = true →
        (envAfter riot_c2rust_h 11).isDefined n = false) ∧
    (envAfter riot_bindgen_h 3).isDefined "UINT16_MAX" = true ∧
    (envAfter riot_bindgen_h 3).isDefined "UINT32_MAX" = true := by
  refine ⟨?_, by decide, by decide⟩
  intro n _
  have h11 : envAfter riot_c2rust_h 11 = [] := by decide
  rw [Env.isDefined, h11]
  rfl

/-- C1 witness: the amended restoration statement instantiated at the
concrete macro name _STDATOMIC_H, with the hypothesis discharged by
evaluation. -/
theorem c1_restore_witness :
    (envAfter riot_c2rust_h 5).isDefined "_STDATOMIC_H" = true ∧
    (envAfter riot_c2rust_h 11).isDefined "_STDATOMIC_H" = false :=
  ⟨by decide, c1_restore.1 "_STDATOMIC_H" (by decide)⟩

/-- C2: each of the five macros the c2rust header defines before the
rmutex.h inclusion (__CLANG_STDATOMIC_H, _STDATOMIC_H, _STDATOMIC_H_,
ATOMIC_VAR_INIT, atomic_int_least16_t) is defined at the inclusion point
(after directive 5) and undefined once the undefinition block that
immediately follows the inclusion has run (after directive 11). -/
theorem c2_five_restored :
    ((envAfter riot_c2rust_h 5).isDefined "__CLANG_STDATOMIC_H" = true ∧
     (envAfter riot_c2rust_h 5).isDefined "_STDATOMIC_H" = true ∧
     (envAfter riot_c2rust_h 5).isDefined "_STDATOMIC_H_" = true ∧
     (envAfter riot_c2rust_h 5).isDefined "ATOMIC_VAR_INIT" = true ∧
     (envAfter riot_c2rust_h 5).isDefined "atomic_int_least16_t" = true) ∧
    ((envAfter riot_c2rust_h 11).isDefined "__CLANG_STDATOMIC_H" = false ∧
     (envAfter riot_c2rust_h 11).isDefined "_STDATOMIC_H" = false ∧
     (envAfter riot_c2rust_h 11).isDefined "_STDATOMIC_H_" = false ∧
     (envAfter riot_c2rust_h 11).isDefined "ATOMIC_VAR_INIT" = false ∧
     (envAfter riot_c2rust_h 11).isDefined "atomic_int_least16_t" = false) := by
  decide

/-- C3: the bindgen header pre-seeds UINT16_MAX with the literal 0xffff,
whose value is 2^16 - 1 = 65535, and UINT32_MAX with the literal 0xffffffff,
whose value is 2^32 - 1 = 4294967295, matching the values the toolchain's
standard library would define. -/
theorem c3_limits :
    (envAfter riot_bindgen_h 2).findDef "UINT16_MAX" = some (.obj "0xffff") ∧
    hexLit "0xffff" = some (2 ^ 16 - 1) ∧
    (envAfter riot_bindgen_h 2).findDef "UINT32_MAX" = some (.obj "0xffffffff") ∧
    hexLit "0xffffffff" = some (2 ^ 32 - 1) := by
  decide

/-- C4: the three standard atomic-header guard macros are all defined in the
environment in effect at the rmutex.h inclusion (directive 5) and all
undefined in the environment in effect at the later riot-headers.h inclusion
(directive 12), so the real stdatomic.h contents are bypassed exactly during
the rmutex.h inclusion. -/
theorem c4_guards :
    riot_c2rust_h[5]? = some (.incl "rmutex.h") ∧
    riot_c2rust_h[12]? = some (.incl "riot-headers.h") ∧
    ((envAfter riot_c2rust_h 5).isDefined "__CLANG_STDATOMIC_H" = true ∧
     (envAfter riot_c2rust_h 5).isDefined "_STDATOMIC_H" = true ∧
     (envAfter riot_c2rust_h 5).isDefined "_STDATOMIC_H_" = true) ∧
    ((envAfter riot_c2rust_h 12).isDefined "__CLANG_STDATOMIC_H" = false ∧
     (envAfter riot_c2rust_h 12).isDefined "_STDATOMIC_H" = false ∧
     (envAfter riot_c2rust_h 12).isDefined "_STDATOMIC_H_" = false) := by
  decide

/-- C5: IS_C2RUST is defined in the environment in effect when the c2rust
header includes riot-headers.h (directive 12), while no directive of the
bindgen header defines IS_C2RUST at all, so the marker distinguishes the
translator's view of the header tree from the binding generator's. -/
theorem c5_marker :
    riot_c2rust_h[12]? = some (.incl "riot-headers.h") ∧
    (envAfter riot_c2rust_h 12).isDefined "IS_C2RUST" = true ∧
    riot_bindgen_h.all (fun d => definesName d != some "IS_C2RUST") = true := by
  decide

/-- C6: atomic_int_least16_t is defined as an object-like macro expanding to
int_least16_t by the directive immediately preceding the rmutex.h inclusion,
carries exactly that body in the environment at the inclusion, is undefined
by a directive in the restoration block with no further inclusion before it,
and is no longer defined at the later riot-headers.h inclusion or at the end
of the header. -/
theorem c6_alias :
    riot_c2rust_h[4]? = some (.define "atomic_int_least16_t" (.obj "int_least16_t")) ∧
    riot_c2rust_h[5]? = some (.incl "rmutex.h") ∧
    riot_c2rust_h[10]? = some (.undefine "atomic_int_least16_t") ∧
    ((riot_c2rust_h.take 10).drop 6).all (fun d => !(isIncl d)) = true ∧
    (envAfter riot_c2rust_h 5).findDef "atomic_int_least16_t" = some (.obj "int_least16_t") ∧
    (envAfter riot_c2rust_h 11).isDefined "atomic_int_least16_t" = false ∧
    (envAfter riot_c2rust_h 12).isDefined "atomic_int_least16_t" = false := by
  decide

/-- C7 counterexample: the claim that each header performs exactly one
header inclusion fails on the c2rust header, which contains two inclusion
directives (rmutex.h and riot-headers.h). -/
theorem c7_single_include_fails :
    ¬ (riot_bindgen_h.countP isIncl = 1 ∧ riot_c2rust_h.countP isIncl = 1) :=
  fun h => absurd h.2 (by decide)

/-- C7 (amended): each header consists solely of sequential macro
definitions, inclusions, and macro undefinitions. The bindgen header is two
definitions followed by a single inclusion with no cleanup; the c2rust
header is five definitions, a bracketed inclusion, five undefinitions, one
further definition, and a final inclusion, for two inclusions in total. -/
theorem c7_shape :
    riot_bindgen_h.countP isIncl = 1 ∧
    riot_c2rust_h.countP isIncl = 2 ∧
    riot_bindgen_h.length = 3 ∧
    (riot_bindgen_h.take 2).all isDefine = true ∧
    riot_bindgen_h[2]? = some (.incl "riot-headers.h") ∧
    riot_bindgen_h.countP isUndefine = 0 ∧
    riot_c2rust_h.length = 13 ∧
    (riot_c2rust_h.take 5).all isDefine = true ∧
    riot_c2rust_h[5]? = some (.incl "rmutex.h") ∧
    ((riot_c2rust_h.drop 6).take 5).all isUndefine = true ∧
    riot_c2rust_h[11]? = some (.define "IS_C2RUST" (.obj "")) ∧
    riot_c2rust_h[12]? = some (.incl "riot-headers.h") := by
  decide

/-- C8: in the environment seen by the rmutex.h inclusion, ATOMIC_VAR_INIT
is the one-parameter function-like macro with parameter x and body x, and
under the substitution semantics its expansion at every argument is that
argument itself: atomic initializers become plain initializers. -/
theorem c8_identity :
    (envAfter riot_c2rust_h 5).findDef "ATOMIC_VAR_INIT" = some (.fn ["x"] ["x"]) ∧
    (∀ arg : String, expand1 "x" ["x"] arg = [arg]) := by
  refine ⟨by decide, ?_⟩
  intro a
  simp [expand1]

/-- C8 witness: the identity expansion at the concrete argument token
mutex_init(m). -/
theorem c8_identity_witness :
    expand1 "x" ["x"] "mutex_init(m)" = ["mutex_init(m)"] :=
  c8_identity.2 "mutex_init(m)"

/-- C9: after all thirteen directives of the c2rust header, IS_C2RUST is
still defined, and no directive of the header undefines it, so it persists
into any translation unit including the header. -/
theorem c9_persist :
    (envAfter riot_c2rust_h riot_c2rust_h.length).isDefined "IS_C2RUST" = true ∧
    riot_c2rust_h.all (fun d => d != .undefine "IS_C2RUST") = true := by
  decide

/-- C10: in the environment in effect at the riot-headers.h inclusion of
the c2rust header (directive 12), none of the five atomic workaround macros
is defined by this header while IS_C2RUST is, so only the rmutex.h inclusion
sees the atomic workaround environment. -/
theorem c10_include_env :
    riot_c2rust_h[12]? = some (.incl "riot-headers.h") ∧
    (envAfter riot_c2rust_h 12).isDefined "__CLANG_STDATOMIC_H" = false ∧
    (envAfter riot_c2rust_h 12).isDefined "_STDATOMIC_H" = false ∧
    (envAfter riot_c2rust_h 12).isDefined "_STDATOMIC_H_" = false ∧
    (envAfter riot_c2rust_h 12).isDefined "ATOMIC_VAR_INIT" = false ∧
    (envAfter riot_c2rust_h 12).isDefined "atomic_int_least16_t" = false ∧
    (envAfter riot_c2rust_h 12).isDefined "IS_C2RUST" = true := by
  decide

end RiotSys
